import Mathlib

/-
Shallow embedding of `src/utils.py` from the n8n-Workflow-Model-Tracker
repository: the paginated fetcher `fetch_workflows_generator` and the
classifier `process_workflows`.

Python runtime values that can appear in the JSON data handled by the code
are modelled by the inductive `PyVal` (floats do not occur in the claims or
in the relevant data paths and are not modelled).  Python exceptions that
the code can raise (TypeError from `x in y` on a non-container, TypeError
from `str.join` on non-string items, AttributeError from calling `.get` /
`.values` on a non-dict) are modelled with `Except PyErr`.  Exception
messages follow CPython's wording; the quote character in CPython messages
is written with the escape \x27.
-/

/-- A Python value as it can occur in the JSON data handled by the code. -/
inductive PyVal where
  | vNull
  | vBool (b : Bool)
  | vInt (n : Int)
  | vStr (s : String)
  | vList (xs : List PyVal)
  | vDict (kvs : List (String × PyVal))

/-- Python exceptions raised by the modelled operations. -/
inductive PyErr where
  | typeError (msg : String)
  | attributeError (msg : String)

/-- The CPython type name of a value, used in exception messages. -/
def pyTypeName : PyVal → String
  | .vNull => "NoneType"
  | .vBool _ => "bool"
  | .vInt _ => "int"
  | .vStr _ => "str"
  | .vList _ => "list"
  | .vDict _ => "dict"

/-- Python truthiness (`bool(v)`): None, False, 0, empty string, empty list
and empty dict are falsy, everything else truthy. -/
def pyTruthy : PyVal → Bool
  | .vNull => false
  | .vBool b => b
  | .vInt n => !(n == 0)
  | .vStr s => !(s == "")
  | .vList xs => !xs.isEmpty
  | .vDict kvs => !kvs.isEmpty

/-- Lookup of a key in a Python dict (modelled as an association list in
insertion order; Python dict keys are unique). -/
def dLookup (kvs : List (String × PyVal)) (k : String) : Option PyVal :=
  match kvs with
  | [] => none
  | kv :: rest => if kv.1 == k then some kv.2 else dLookup rest k

/-- `d.get(k, dflt)` on a Python dict. -/
def dGet (kvs : List (String × PyVal)) (k : String) (dflt : PyVal) : PyVal :=
  (dLookup kvs k).getD dflt

/-- `needle.isPrefix of hay` on character lists. -/
def charsPrefix : List Char → List Char → Bool
  | [], _ => true
  | _ :: _, [] => false
  | a :: as, b :: bs => a == b && charsPrefix as bs

/-- Substring containment on character lists: does `needle` occur
contiguously inside `hay`? -/
def charsContains : List Char → List Char → Bool
  | [], needle => needle.isEmpty
  | h :: t, needle => charsPrefix needle (h :: t) || charsContains t needle

/-- Python `needle in hay` for strings (substring containment). -/
def strContains (hay needle : String) : Bool :=
  charsContains hay.data needle.data

/-- Python `v == s` where `s` is a string literal: only a string with the
same characters is equal; values of any other type compare unequal. -/
def pyEqStrB (v : PyVal) (s : String) : Bool :=
  match v with
  | .vStr t => t == s
  | _ => false

/-- Python `needle in container` where `needle` is a string: substring test
on strings, element membership on lists, key membership on dicts, and a
TypeError on non-container values (None, bool, int). -/
def pyInStr (needle : String) : PyVal → Except PyErr Bool
  | .vStr s => .ok (strContains s needle)
  | .vList xs => .ok (xs.any (fun v => pyEqStrB v needle))
  | .vDict kvs => .ok (kvs.any (fun kv => kv.1 == needle))
  | v => .error (.typeError
      ("argument of type \x27" ++ pyTypeName v ++ "\x27 is not iterable"))

/-- Python attribute access used as a dict method (`.get` / `.values`):
succeeds exactly on dicts, AttributeError otherwise. -/
def asDict (attr : String) : PyVal → Except PyErr (List (String × PyVal))
  | .vDict kvs => .ok kvs
  | v => .error (.attributeError
      ("\x27" ++ pyTypeName v ++ "\x27 object has no attribute \x27" ++ attr ++ "\x27"))

/-- Python iteration `for x in v`: lists yield their elements, strings yield
one-character strings, dicts yield their keys; other values raise
TypeError. -/
def pyIter : PyVal → Except PyErr (List PyVal)
  | .vList xs => .ok xs
  | .vStr s => .ok (s.data.map (fun c => .vStr ⟨[c]⟩))
  | .vDict kvs => .ok (kvs.map (fun kv => .vStr kv.1))
  | v => .error (.typeError
      ("\x27" ++ pyTypeName v ++ "\x27 object is not iterable"))

/-- Decimal digits of a natural number (fuel-based helper). -/
def natToStrAux : Nat → Nat → List Char → List Char
  | 0, _, acc => acc
  | fuel + 1, n, acc =>
    let d := Char.ofNat (48 + n % 10)
    if n < 10 then d :: acc else natToStrAux fuel (n / 10) (d :: acc)

/-- Decimal rendering of a natural number. -/
def natToStr (n : Nat) : String := ⟨natToStrAux (n + 1) n []⟩

/-- Python `str(i)` for an int. -/
def intToStr : Int → String
  | .ofNat n => natToStr n
  | .negSucc n => "-" ++ natToStr (n + 1)

/-- Join a list of strings with a separator. -/
def joinStrs (sep : String) : List String → String
  | [] => ""
  | [x] => x
  | x :: xs => x ++ sep ++ joinStrs sep xs

mutual
/-- Python `repr(v)` for the modelled values (string escaping inside
`repr` of a string is not modelled; only scalar cases are reachable from
the claims). -/
def pyRepr : PyVal → String
  | .vNull => "None"
  | .vBool true => "True"
  | .vBool false => "False"
  | .vInt n => intToStr n
  | .vStr s => "\x27" ++ s ++ "\x27"
  | .vList xs => "[" ++ pyReprSep xs ++ "]"
  | .vDict kvs => "\x7b" ++ pyReprSepKV kvs ++ "\x7d"

/-- Comma-separated reprs of list elements. -/
def pyReprSep : List PyVal → String
  | [] => ""
  | [x] => pyRepr x
  | x :: y :: rest => pyRepr x ++ ", " ++ pyReprSep (y :: rest)

/-- Comma-separated reprs of dict entries. -/
def pyReprSepKV : List (String × PyVal) → String
  | [] => ""
  | [kv] => "\x27" ++ kv.1 ++ "\x27: " ++ pyRepr kv.2
  | kv :: kv2 :: rest => "\x27" ++ kv.1 ++ "\x27: " ++ pyRepr kv.2 ++ ", " ++ pyReprSepKV (kv2 :: rest)
end

/-- Python `str(v)`: identical to `repr` except on strings, which render
as themselves. -/
def pyStr : PyVal → String
  | .vStr s => s
  | v => pyRepr v

/-- Check that every element of the list is a string, in order, as
`str.join` does; TypeError at the first non-string item. -/
def asStrs : List PyVal → Except PyErr (List String)
  | [] => .ok []
  | .vStr s :: rest => do
      let t ← asStrs rest
      .ok (s :: t)
  | v :: _ => .error (.typeError
      ("sequence item: expected str instance, " ++ pyTypeName v ++ " found"))

/-- Python `sep.join(xs)`: TypeError if any element is not a string. -/
def pyJoin (sep : String) (xs : List PyVal) : Except PyErr String := do
  let ss ← asStrs xs
  .ok (joinStrs sep ss)

/-- Python `int(s)`: optional surrounding whitespace, optional sign, then
decimal digits (underscore digit separators are not modelled). -/
def pyInt (s : String) : Option Int :=
  let t := (((s.data.dropWhile Char.isWhitespace).reverse.dropWhile Char.isWhitespace).reverse)
  let signed : Int × List Char :=
    match t with
    | '+' :: rest => (1, rest)
    | '-' :: rest => (-1, rest)
    | l => (1, l)
  if signed.2 ≠ [] ∧ signed.2.all Char.isDigit then
    some (signed.1 * Int.ofNat (signed.2.foldl (fun acc c => acc * 10 + (c.toNat - 48)) 0))
  else none

/-
Classifier: `process_workflows(data)` from `src/utils.py`, lines 63-136.
-/

/-- The exact node-type string of the preferred provider
(`"@n8n/n8n-nodes-langchain.lmChatOpenRouter"` in `src/utils.py` line 92). -/
def sentinel : String := "@n8n/n8n-nodes-langchain.lmChatOpenRouter"

/-- One derived display row, `workflow_info` in `src/utils.py` lines
119-126.  The first three fields keep the raw Python values
(`workflow.get(...)` results); the last three are the joined collector
strings. -/
structure WorkflowInfo where
  id : PyVal
  name : PyVal
  active : PyVal
  chatModelUsed : String
  key : String
  modelUsed : String

/-- The per-workflow mutable state of the node loop in
`process_workflows`: the two membership flags and the three collectors
(`has_openrouter`, `has_other_model`, `chat_models`, `keys`, `models`). -/
structure NodeAcc where
  hasOpenrouter : Bool
  hasOther : Bool
  chatModels : List PyVal
  keys : List PyVal
  models : List String

/-- Initial state of the node loop. -/
def accInit : NodeAcc := ⟨false, false, [], [], []⟩

/-- Credential-name extraction, `src/utils.py` lines 105-108: for each
value of the credentials dict (in insertion order) that is itself a dict
containing a `"name"` key, take `cred_val["name"]`. -/
def credNames (kvs : List (String × PyVal)) : List PyVal :=
  kvs.filterMap (fun kv =>
    match kv.2 with
    | .vDict ckvs => dLookup ckvs "name"
    | _ => none)

/-- Body of the `for node in nodes` loop, `src/utils.py` lines 88-117.
`node.get("type")` and `node.get("name")` default to `None`;
`is_other_chat` evaluates `"lmChat" in node_type or "ChatModel" in
node_name` with Python short-circuiting, which raises TypeError when the
tested value is not a container. -/
def processNode (acc : NodeAcc) (node : PyVal) : Except PyErr NodeAcc := do
  let nkvs ← asDict "get" node
  let node_type := dGet nkvs "type" .vNull
  let node_name := dGet nkvs "name" .vNull
  let is_openrouter := pyEqStrB node_type sentinel
  let b1 ← pyInStr "lmChat" node_type
  let is_other_chat ← if b1 then pure true else pyInStr "ChatModel" node_name
  if is_openrouter || is_other_chat then
    let acc := if is_openrouter then { acc with hasOpenrouter := true }
               else { acc with hasOther := true }
    let acc := { acc with chatModels := acc.chatModels ++ [node_name] }
    let credentials := dGet nkvs "credentials" (.vDict [])
    let ckvs ← asDict "values" credentials
    let acc := { acc with keys := acc.keys ++ credNames ckvs }
    if is_openrouter then
      let pkvs ← asDict "get" (dGet nkvs "parameters" (.vDict []))
      let model_val := dGet pkvs "model" .vNull
      if pyTruthy model_val then
        match model_val with
        | .vDict _ => pure { acc with models := acc.models ++ ["Dynamic"] }
        | mv => pure { acc with models := acc.models ++ [pyStr mv] }
      else pure acc
    else pure acc
  else pure acc

/-- The node loop itself: fold `processNode` over the node list. -/
def scanNodes (acc : NodeAcc) : List PyVal → Except PyErr NodeAcc
  | [] => .ok acc
  | n :: ns => do
      let acc2 ← processNode acc n
      scanNodes acc2 ns

/-- The display form `", ".join(c) if c else "None"` of the `chat_models`
and `keys` collectors, `src/utils.py` lines 123-124 (`join` may raise on
non-string items). -/
def collectorField (xs : List PyVal) : Except PyErr String :=
  if xs.isEmpty then .ok "None" else pyJoin ", " xs

/-- The display form `", ".join(models) if models else ""` of the `models`
collector, line 125 — the empty placeholder is `""`, not `"None"`, and
`models` only ever holds strings. -/
def modelField (ms : List String) : String :=
  if ms.isEmpty then "" else joinStrs ", " ms

/-- Body of the `for workflow in workflows` loop, `src/utils.py` lines
76-128: scan the nodes, then build the `workflow_info` row; returns the
row together with the two membership flags. -/
def processWorkflow (workflow : PyVal) : Except PyErr (WorkflowInfo × Bool × Bool) := do
  let wkvs ← asDict "get" workflow
  let workflow_name := dGet wkvs "name" (.vStr "Unnamed Workflow")
  let workflow_id := dGet wkvs "id" .vNull
  let ns ← pyIter (dGet wkvs "nodes" (.vList []))
  let acc ← scanNodes accInit ns
  let chatStr ← collectorField acc.chatModels
  let keyStr ← collectorField acc.keys
  pure (⟨workflow_id, workflow_name, dGet wkvs "active" (.vBool false),
         chatStr, keyStr, modelField acc.models⟩, acc.hasOpenrouter, acc.hasOther)

/-- The workflow loop of `process_workflows`, lines 76-134: one row per
workflow appended to `all_workflows_data`, and the same row appended to
`openrouter_workflows` / `other_model_workflows` when the respective flag
is set. -/
def processList : List PyVal → Except PyErr (List WorkflowInfo × List WorkflowInfo × List WorkflowInfo)
  | [] => .ok ([], [], [])
  | w :: ws => do
      let r ← processWorkflow w
      let rest ← processList ws
      .ok ((if r.2.1 then r.1 :: rest.1 else rest.1),
           (if r.2.2 then r.1 :: rest.2.1 else rest.2.1),
           r.1 :: rest.2.2)

/-- `process_workflows(data)`, `src/utils.py` lines 63-136: if `"error" in
data` return three empty lists, else iterate `data.get("data", [])`.
Returns `(openrouter_workflows, other_model_workflows,
all_workflows_data)`. -/
def process_workflows (data : PyVal) : Except PyErr (List WorkflowInfo × List WorkflowInfo × List WorkflowInfo) := do
  let hasErr ← pyInStr "error" data
  if hasErr then pure ([], [], [])
  else
    let kvs ← asDict "get" data
    let ws ← pyIter (dGet kvs "data" (.vList []))
    processList ws

/-
Fetcher: `fetch_workflows_generator(api_url=None, api_key=None)` from
`src/utils.py`, lines 7-61.  The outside world is modelled explicitly: the
process environment as `Env`, and the network as the list of results the
server gives to the successive GET requests, in order.  The function
returns the list of requests it issued together with the list of values
the generator yields.
-/

/-- The environment variables read by `fetch_workflows_generator`
(`os.getenv` returns the string value or `None`). -/
structure Env where
  n8nApiKey : Option String
  n8nBaseUrl : Option String
  n8nBatchSize : Option String

/-- Outcome of one `requests.get` call as the code observes it:
a 2xx response whose body parsed as JSON (`success`); an exception from
`requests.get` itself or from `response.raise_for_status()` — both are
`requests.exceptions.RequestException`, rendered by the code as
`str(e)` (`requestError`); or a 2xx response whose body is not valid
JSON, so `response.json()` raises ValueError (`decodeFailure`, carrying
the status code and the raw body text). -/
inductive HttpResult where
  | success (body : PyVal)
  | requestError (msg : String)
  | decodeFailure (status : Int) (text : String)

/-- One GET request as issued in lines 38-42: the URL, the
`X-N8N-API-KEY` header value, the `limit` query parameter, and the
`cursor` query parameter when present. -/
structure Request where
  url : String
  apiKey : String
  limit : Int
  cursor : Option PyVal

/-- One value yielded by the generator: either a batch (`yield workflows`,
line 47) or an error dict (`yield, with "error": msg`, lines 20, 24, 57,
59, 61). -/
inductive FetchItem where
  | batch (workflows : PyVal)
  | error (msg : String)

/-- The Python value actually yielded: batches are yielded as they are,
errors as a dict with the single key `"error"`. -/
def FetchItem.toPy : FetchItem → PyVal
  | .batch v => v
  | .error m => .vDict [("error", .vStr m)]

/-- The error message of line 57, `"Failed to decode JSON. Status:
{status}, URL: {api_url}, Content: {content}..."`. -/
def decodeErrMsg (status apiUrl content : String) : String :=
  "Failed to decode JSON. Status: " ++ status ++ ", URL: " ++ apiUrl ++
    ", Content: " ++ content ++ "..."

/-- Truthiness of a resolved configuration string: `if not x` is true for
`None` and for the empty string. -/
def optFalsy : Option String → Bool
  | none => true
  | some s => s == ""

/-- API-key resolution, lines 11-12: an explicit truthy argument wins,
else the `N8N_API_KEY` environment variable. -/
def resolveApiKey (api_key : Option String) (env : Env) : Option String :=
  if optFalsy api_key then env.n8nApiKey else api_key

/-- API-URL resolution, lines 14-17: an explicit truthy argument wins,
else `N8N_BASE_URL` with `"/api/v1/workflows"` appended when that
variable is truthy. -/
def resolveApiUrl (api_url : Option String) (env : Env) : Option String :=
  if optFalsy api_url then
    match env.n8nBaseUrl with
    | some base => if base == "" then api_url else some (base ++ "/api/v1/workflows")
    | none => api_url
  else api_url

/-- Batch-size resolution, line 35: `int(os.getenv("N8N_BATCH_SIZE", 20))`;
`none` means `int()` raised ValueError. -/
def resolveBatchSize (env : Env) : Option Int :=
  match env.n8nBatchSize with
  | none => some 20
  | some s => pyInt s

/-- The `while True` pagination loop, lines 37-52, driven by the list of
server results for the successive requests (an empty list models a server
that never answers the next request: the generator is then simply never
resumed past that point, producing nothing further).  Each iteration
issues one request carrying `limit` and, when continuing, `cursor`.  On a
parsed 2xx body: yield `data.get("data", [])`, read
`data.get("nextCursor")`, stop when it is falsy.  A body that is not a
dict makes `data.get` raise AttributeError, which falls to the generic
`except Exception` handler of line 60.  The two `except` clauses of lines
54-59 turn decode failures and request failures into single error
yields. -/
def fetchLoop (apiUrl apiKey : String) (batchSize : Int) :
    Option PyVal → List HttpResult → List Request × List FetchItem
  | _, [] => ([], [])
  | cursor, r :: rest =>
    let req : Request := ⟨apiUrl, apiKey, batchSize, cursor⟩
    match r with
    | .requestError msg => ([req], [.error ("Request failed: " ++ msg)])
    | .decodeFailure status text =>
        ([req], [.error (decodeErrMsg (intToStr status) apiUrl (⟨text.data.take 500⟩ : String))])
    | .success body =>
      match body with
      | .vDict kvs =>
        let workflows := dGet kvs "data" (.vList [])
        let nextCursor := dGet kvs "nextCursor" .vNull
        if pyTruthy nextCursor then
          let next := fetchLoop apiUrl apiKey batchSize (some nextCursor) rest
          (req :: next.1, .batch workflows :: next.2)
        else
          ([req], [.batch workflows])
      | other =>
        ([req], [.error ("An unexpected error occurred: \x27" ++ pyTypeName other ++
            "\x27 object has no attribute \x27get\x27")])

/-- `fetch_workflows_generator`, lines 7-61: resolve the key and URL
(yield one error and stop if either is falsy, before any request), resolve
the batch size (a ValueError from `int` falls into the ValueError handler
of line 54, with no `response` in scope: status `"Unknown"`, content `"No
response content"`), then run the pagination loop. -/
def fetch_workflows_generator (api_url api_key : Option String) (env : Env)
    (responses : List HttpResult) : List Request × List FetchItem :=
  let key := resolveApiKey api_key env
  let url := resolveApiUrl api_url env
  if optFalsy key then
    ([], [.error "API key not found. Please set N8N_API_KEY in .env file."])
  else if optFalsy url then
    ([], [.error "API URL not found. Please set N8N_BASE_URL in .env file or pass api_url."])
  else
    match resolveBatchSize env with
    | some b => fetchLoop (url.getD "") (key.getD "") b none responses
    | none => ([], [.error (decodeErrMsg "Unknown" (url.getD "") "No response content")])

/-
Derived predicates on nodes and pages, used to state the claims.
-/

/-- Is the value a dict? -/
def isDictB : PyVal → Bool
  | .vDict _ => true
  | _ => false

/-- Is the value a string? -/
def isStrVal : PyVal → Bool
  | .vStr _ => true
  | _ => false

/-- The string held by a string value (`""` on anything else). -/
def strOf : PyVal → String
  | .vStr s => s
  | _ => ""

/-- `node.get(k)` seen from outside: the field of a dict node, `None` when
absent or when the node is not a dict. -/
def nodeField (n : PyVal) (k : String) : PyVal :=
  match n with
  | .vDict kvs => dGet kvs k .vNull
  | _ => .vNull

/-- A node record is well-formed when it is a dict whose `type` and `name`
fields are present and are strings. -/
def nodeWF (n : PyVal) : Bool :=
  isDictB n && isStrVal (nodeField n "type") && isStrVal (nodeField n "name")

/-- A node counts as preferred exactly when its `type` equals the sentinel
string. -/
def orMatch (n : PyVal) : Bool :=
  pyEqStrB (nodeField n "type") sentinel

/-- A node sets the other-model flag exactly when it is not the sentinel
type and its `type` contains `"lmChat"` or its `name` contains
`"ChatModel"` (reading of the code for well-formed nodes). -/
def otherMatch (n : PyVal) : Bool :=
  !orMatch n &&
    (strContains (strOf (nodeField n "type")) "lmChat" ||
     strContains (strOf (nodeField n "name")) "ChatModel")

/-- `node.get("parameters", {})` seen from outside. -/
def paramsOf (n : PyVal) : PyVal :=
  match n with
  | .vDict kvs => dGet kvs "parameters" (.vDict [])
  | _ => .vDict []

/-- What a node adds to the `models` collector: only sentinel-typed nodes
contribute, and only when the `model` parameter is truthy — `"Dynamic"`
for a mapping, the `str` form otherwise.  (The non-dict `parameters` case
is unreachable when `processNode` succeeds.) -/
def nodeModelContrib (n : PyVal) : List String :=
  if orMatch n then
    match paramsOf n with
    | .vDict pkvs =>
      let mv := dGet pkvs "model" .vNull
      if pyTruthy mv then
        match mv with
        | .vDict _ => ["Dynamic"]
        | v => [pyStr v]
      else []
    | _ => []
  else []

/-- Map a fallible function over a list, stopping at the first error. -/
def mapE {α : Type} (f : PyVal → Except PyErr α) : List PyVal → Except PyErr (List α)
  | [] => .ok []
  | x :: xs => do
      let y ← f x
      let ys ← mapE f xs
      .ok (y :: ys)

/-- Assemble the three result lists from the per-workflow rows and flags:
the all-list keeps every row in order, the preferred and other lists keep
the rows whose respective flag is set. -/
def assembleLists (rs : List (WorkflowInfo × Bool × Bool)) :
    List WorkflowInfo × List WorkflowInfo × List WorkflowInfo :=
  ((rs.filter (fun r => r.2.1)).map (fun r => r.1),
   (rs.filter (fun r => r.2.2)).map (fun r => r.1),
   rs.map (fun r => r.1))

/-- A server page that continues: a dict body whose `nextCursor` is
truthy. -/
def pageCont (p : PyVal) : Bool :=
  match p with
  | .vDict kvs => pyTruthy (dGet kvs "nextCursor" .vNull)
  | _ => false

/-- A terminal server page: a dict body whose `nextCursor` is absent or
falsy (absent, `null`, `""`, ...). -/
def pageLast (p : PyVal) : Bool :=
  match p with
  | .vDict kvs => !pyTruthy (dGet kvs "nextCursor" .vNull)
  | _ => false

/-- The batch carried by a page: `data.get("data", [])`. -/
def pageData (p : PyVal) : PyVal :=
  match p with
  | .vDict kvs => dGet kvs "data" (.vList [])
  | _ => .vList []

/-- Number of workflow records in a yielded item (batches carry the
page's `data` array). -/
def batchLen : FetchItem → Nat
  | .batch (.vList xs) => xs.length
  | _ => 0

/-- Number of workflow records in a page's `data` array. -/
def dataLen (p : PyVal) : Nat :=
  match pageData p with
  | .vList xs => xs.length
  | _ => 0

/-
Characterization lemmas for the classifier.
-/

theorem exceptPure_eq {e a : Type} (x : a) : (pure x : Except e a) = Except.ok x := rfl

theorem isStrVal_iff (v : PyVal) : isStrVal v = true ↔ ∃ s, v = .vStr s := by
  cases v <;> simp [isStrVal]

/-- A successful `processNode` step sets the openrouter flag exactly when
the node's `type` equals the sentinel. -/
theorem processNode_or (acc : NodeAcc) (n : PyVal) (acc2 : NodeAcc)
    (h : processNode acc n = .ok acc2) :
    acc2.hasOpenrouter = (acc.hasOpenrouter || orMatch n) := by
  cases n with
  | vDict nkvs =>
    simp only [processNode, asDict, Bind.bind, Except.bind] at h
    simp only [orMatch, nodeField]
    cases hb1 : pyInStr "lmChat" (dGet nkvs "type" .vNull) with
    | error e => rw [hb1] at h; cases h
    | ok b1 =>
      rw [hb1] at h
      repeat' split at h
      all_goals cases h
      all_goals simp_all
  | vNull => simp [processNode, asDict, Bind.bind, Except.bind] at h
  | vBool b => simp [processNode, asDict, Bind.bind, Except.bind] at h
  | vInt m => simp [processNode, asDict, Bind.bind, Except.bind] at h
  | vStr s => simp [processNode, asDict, Bind.bind, Except.bind] at h
  | vList xs => simp [processNode, asDict, Bind.bind, Except.bind] at h

/-- A successful `processNode` step appends exactly `nodeModelContrib n`
to the `models` collector. -/
theorem processNode_models (acc : NodeAcc) (n : PyVal) (acc2 : NodeAcc)
    (h : processNode acc n = .ok acc2) :
    acc2.models = acc.models ++ nodeModelContrib n := by
  cases n with
  | vDict nkvs =>
    simp only [processNode, asDict, Bind.bind, Except.bind] at h
    simp only [nodeModelContrib, orMatch, nodeField, paramsOf]
    cases hb1 : pyInStr "lmChat" (dGet nkvs "type" .vNull) with
    | error e => rw [hb1] at h; cases h
    | ok b1 =>
      rw [hb1] at h
      repeat' split at h
      all_goals cases h
      all_goals (repeat' split)
      all_goals simp_all
  | vNull => simp [processNode, asDict, Bind.bind, Except.bind] at h
  | vBool b => simp [processNode, asDict, Bind.bind, Except.bind] at h
  | vInt m => simp [processNode, asDict, Bind.bind, Except.bind] at h
  | vStr s => simp [processNode, asDict, Bind.bind, Except.bind] at h
  | vList xs => simp [processNode, asDict, Bind.bind, Except.bind] at h

/-- For a well-formed node, a successful `processNode` step sets the
other-model flag exactly when the node is not sentinel-typed and its
`type` contains `"lmChat"` or its `name` contains `"ChatModel"`. -/
theorem processNode_other (acc : NodeAcc) (n : PyVal) (acc2 : NodeAcc)
    (hwf : nodeWF n = true) (h : processNode acc n = .ok acc2) :
    acc2.hasOther = (acc.hasOther || otherMatch n) := by
  cases n with
  | vDict nkvs =>
    simp only [nodeWF, nodeField, isDictB, isStrVal, Bool.and_eq_true] at hwf
    obtain ⟨⟨-, ht⟩, hm⟩ := hwf
    cases het : dGet nkvs "type" .vNull <;> rw [het] at ht <;> try cases ht
    cases hen : dGet nkvs "name" .vNull <;> rw [hen] at hm <;> try cases hm
    case vDict.intro.intro.vStr.refl.vStr.refl t m =>
    simp only [processNode, asDict, Bind.bind, Except.bind, het, hen, pyInStr] at h
    simp only [otherMatch, orMatch, nodeField, het, hen, strOf]
    repeat' split at h
    all_goals cases h
    all_goals simp_all [pyEqStrB, exceptPure_eq]
  | vNull => simp [processNode, asDict, Bind.bind, Except.bind] at h
  | vBool b => simp [processNode, asDict, Bind.bind, Except.bind] at h
  | vInt m => simp [processNode, asDict, Bind.bind, Except.bind] at h
  | vStr s => simp [processNode, asDict, Bind.bind, Except.bind] at h
  | vList xs => simp [processNode, asDict, Bind.bind, Except.bind] at h

/-- Lift of the three node-step facts to the whole node scan. -/
theorem scanNodes_char (ns : List PyVal) (acc acc2 : NodeAcc)
    (h : scanNodes acc ns = .ok acc2) :
    acc2.hasOpenrouter = (acc.hasOpenrouter || ns.any orMatch) ∧
    acc2.models = acc.models ++ (ns.map nodeModelContrib).flatten ∧
    (ns.all nodeWF = true → acc2.hasOther = (acc.hasOther || ns.any otherMatch)) := by
  induction ns generalizing acc with
  | nil =>
    simp only [scanNodes] at h
    cases h
    simp
  | cons n ns ih =>
    simp only [scanNodes, Bind.bind, Except.bind] at h
    cases hpn : processNode acc n with
    | error e => rw [hpn] at h; cases h
    | ok acc1 =>
      rw [hpn] at h
      obtain ⟨h1, h2, h3⟩ := ih acc1 h
      refine ⟨?_, ?_, ?_⟩
      · rw [h1, processNode_or acc n acc1 hpn]
        simp [Bool.or_assoc]
      · rw [h2, processNode_models acc n acc1 hpn]
        simp
      · intro hwf
        simp only [List.all_cons, Bool.and_eq_true] at hwf
        rw [h3 hwf.2, processNode_other acc n acc1 hwf.1 hpn]
        simp [Bool.or_assoc]

/-- Anatomy of a successful `processWorkflow` run: the workflow is a dict,
its nodes were iterated and scanned, the flags are the scan's flags, and
each display field comes from the corresponding collector. -/
theorem processWorkflow_char (w : PyVal) (info : WorkflowInfo) (hOR hOth : Bool)
    (h : processWorkflow w = .ok (info, hOR, hOth)) :
    ∃ wkvs ns acc, w = .vDict wkvs ∧
      pyIter (dGet wkvs "nodes" (.vList [])) = .ok ns ∧
      scanNodes accInit ns = .ok acc ∧
      hOR = acc.hasOpenrouter ∧ hOth = acc.hasOther ∧
      info.id = dGet wkvs "id" .vNull ∧
      info.name = dGet wkvs "name" (.vStr "Unnamed Workflow") ∧
      info.active = dGet wkvs "active" (.vBool false) ∧
      collectorField acc.chatModels = .ok info.chatModelUsed ∧
      collectorField acc.keys = .ok info.key ∧
      info.modelUsed = modelField acc.models := by
  cases w with
  | vDict wkvs =>
    simp only [processWorkflow, asDict, Bind.bind, Except.bind] at h
    cases hit : pyIter (dGet wkvs "nodes" (.vList [])) with
    | error e => simp only [hit] at h; cases h
    | ok ns =>
      simp only [hit] at h
      cases hsc : scanNodes accInit ns with
      | error e => simp only [hsc] at h; cases h
      | ok acc =>
        simp only [hsc] at h
        cases hcf : collectorField acc.chatModels with
        | error e => simp only [hcf] at h; cases h
        | ok cs =>
          simp only [hcf] at h
          cases hkf : collectorField acc.keys with
          | error e => simp only [hkf] at h; cases h
          | ok ks =>
            simp only [hkf] at h
            cases h
            exact ⟨wkvs, ns, acc, rfl, hit, hsc, rfl, rfl, rfl, rfl, rfl, hcf, hkf, rfl⟩
  | vNull => simp [processWorkflow, asDict, Bind.bind, Except.bind] at h
  | vBool b => simp [processWorkflow, asDict, Bind.bind, Except.bind] at h
  | vInt m => simp [processWorkflow, asDict, Bind.bind, Except.bind] at h
  | vStr s => simp [processWorkflow, asDict, Bind.bind, Except.bind] at h
  | vList xs => simp [processWorkflow, asDict, Bind.bind, Except.bind] at h

/-- The workflow loop produces exactly the assembled per-workflow
results. -/
theorem processList_char (ws : List PyVal) (p o a : List WorkflowInfo)
    (h : processList ws = .ok (p, o, a)) :
    ∃ rs, mapE processWorkflow ws = .ok rs ∧ (p, o, a) = assembleLists rs := by
  induction ws generalizing p o a with
  | nil =>
    simp only [processList] at h
    cases h
    exact ⟨[], rfl, rfl⟩
  | cons w ws ih =>
    simp only [processList, Bind.bind, Except.bind] at h
    cases hw : processWorkflow w with
    | error e => simp only [hw] at h; cases h
    | ok r =>
      simp only [hw] at h
      cases hl : processList ws with
      | error e => simp only [hl] at h; cases h
      | ok rest =>
        obtain ⟨p2, o2, a2⟩ := rest
        simp only [hl] at h
        cases h
        obtain ⟨rs, hmap, hasm⟩ := ih p2 o2 a2 hl
        have e1 := congrArg (fun t => t.1) hasm
        have e2 := congrArg (fun t => t.2.1) hasm
        have e3 := congrArg (fun t => t.2.2) hasm
        simp only [assembleLists] at e1 e2 e3
        refine ⟨r :: rs, ?_, ?_⟩
        · simp only [mapE, Bind.bind, Except.bind, hw, hmap]
        · simp only [assembleLists, List.filter_cons, List.map_cons, e1, e2, e3]
          by_cases hr1 : r.2.1 = true <;> by_cases hr2 : r.2.2 = true <;>
            simp [hr1, hr2]

/-- Success path of `process_workflows` on an error-free dict whose
`data` value is a list: it is the workflow loop on that list. -/
theorem process_workflows_run (kvs : List (String × PyVal)) (ws : List PyVal)
    (hne : kvs.any (fun kv => kv.1 == "error") = false)
    (hdata : dGet kvs "data" (.vList []) = .vList ws) :
    process_workflows (.vDict kvs) = processList ws := by
  simp only [process_workflows, pyInStr, asDict, Bind.bind, Except.bind, hne, hdata,
    pyIter, Bool.false_eq_true, if_false]

/-
Characterization lemmas for the fetcher.
-/

/-- The optional trailing error item of a fetch sequence. -/
def errTail : Option String → List FetchItem
  | none => []
  | some m => [.error m]

/-- With a resolvable configuration, the generator is exactly the
pagination loop started with no cursor. -/
theorem fetch_run (url key : String) (api_url api_key : Option String) (env : Env)
    (b : Int) (responses : List HttpResult)
    (hu : resolveApiUrl api_url env = some url) (hk : resolveApiKey api_key env = some key)
    (hu0 : url ≠ "") (hk0 : key ≠ "") (hb : resolveBatchSize env = some b) :
    fetch_workflows_generator api_url api_key env responses = fetchLoop url key b none responses := by
  simp only [fetch_workflows_generator, hu, hk, hb, optFalsy, Option.getD_some]
  simp [hu0, hk0]

/-- Every request issued by the loop carries the configured URL, key and
`limit`. -/
theorem fetchLoop_limits (url key : String) (b : Int) (responses : List HttpResult) :
    ∀ (cursor : Option PyVal), ∀ r ∈ (fetchLoop url key b cursor responses).1,
      r.url = url ∧ r.apiKey = key ∧ r.limit = b := by
  induction responses with
  | nil => intro cursor r hr; simp [fetchLoop] at hr
  | cons resp rest ih =>
    intro cursor r hr
    cases resp with
    | requestError msg =>
      simp [fetchLoop] at hr
      subst hr; exact ⟨rfl, rfl, rfl⟩
    | decodeFailure st tx =>
      simp [fetchLoop] at hr
      subst hr; exact ⟨rfl, rfl, rfl⟩
    | success body =>
      cases body with
      | vDict kvs =>
        by_cases hc : pyTruthy (dGet kvs "nextCursor" .vNull) = true
        · simp [fetchLoop, hc] at hr
          rcases hr with hr | hr
          · subst hr; exact ⟨rfl, rfl, rfl⟩
          · exact ih _ r hr
        · simp [fetchLoop, hc] at hr
          subst hr; exact ⟨rfl, rfl, rfl⟩
      | vNull => simp [fetchLoop] at hr; subst hr; exact ⟨rfl, rfl, rfl⟩
      | vBool bb => simp [fetchLoop] at hr; subst hr; exact ⟨rfl, rfl, rfl⟩
      | vInt nn => simp [fetchLoop] at hr; subst hr; exact ⟨rfl, rfl, rfl⟩
      | vStr ss => simp [fetchLoop] at hr; subst hr; exact ⟨rfl, rfl, rfl⟩
      | vList xs => simp [fetchLoop] at hr; subst hr; exact ⟨rfl, rfl, rfl⟩

/-- Every request issued by the loop either carries the cursor the loop
was entered with, or a truthy cursor obtained from a previous response. -/
theorem fetchLoop_cursors (url key : String) (b : Int) (responses : List HttpResult) :
    ∀ (cursor : Option PyVal), ∀ r ∈ (fetchLoop url key b cursor responses).1,
      r.cursor = cursor ∨ ∃ v, r.cursor = some v ∧ pyTruthy v = true := by
  induction responses with
  | nil => intro cursor r hr; simp [fetchLoop] at hr
  | cons resp rest ih =>
    intro cursor r hr
    cases resp with
    | requestError msg =>
      simp [fetchLoop] at hr; subst hr; exact Or.inl rfl
    | decodeFailure st tx =>
      simp [fetchLoop] at hr; subst hr; exact Or.inl rfl
    | success body =>
      cases body with
      | vDict kvs =>
        by_cases hc : pyTruthy (dGet kvs "nextCursor" .vNull) = true
        · simp [fetchLoop, hc] at hr
          rcases hr with hr | hr
          · subst hr; exact Or.inl rfl
          · rcases ih _ r hr with h1 | h2
            · exact Or.inr ⟨dGet kvs "nextCursor" .vNull, h1, hc⟩
            · exact Or.inr h2
        · simp [fetchLoop, hc] at hr; subst hr; exact Or.inl rfl
      | vNull => simp [fetchLoop] at hr; subst hr; exact Or.inl rfl
      | vBool bb => simp [fetchLoop] at hr; subst hr; exact Or.inl rfl
      | vInt nn => simp [fetchLoop] at hr; subst hr; exact Or.inl rfl
      | vStr ss => simp [fetchLoop] at hr; subst hr; exact Or.inl rfl
      | vList xs => simp [fetchLoop] at hr; subst hr; exact Or.inl rfl

/-- The items produced by the loop are always some batches followed by at
most one error, which is last. -/
theorem fetchLoop_shape (url key : String) (b : Int) (responses : List HttpResult) :
    ∀ (cursor : Option PyVal), ∃ (bs : List PyVal) (e : Option String),
      (fetchLoop url key b cursor responses).2 = bs.map FetchItem.batch ++ errTail e := by
  induction responses with
  | nil => intro cursor; exact ⟨[], none, rfl⟩
  | cons resp rest ih =>
    intro cursor
    cases resp with
    | requestError msg => exact ⟨[], some ("Request failed: " ++ msg), rfl⟩
    | decodeFailure st tx =>
      exact ⟨[], some (decodeErrMsg (intToStr st) url (⟨tx.data.take 500⟩ : String)), rfl⟩
    | success body =>
      cases body with
      | vDict kvs =>
        by_cases hc : pyTruthy (dGet kvs "nextCursor" .vNull) = true
        · obtain ⟨bs, e, he⟩ := ih (some (dGet kvs "nextCursor" .vNull))
          refine ⟨dGet kvs "data" (.vList []) :: bs, e, ?_⟩
          simp [fetchLoop, hc, he]
        · exact ⟨[dGet kvs "data" (.vList [])], none, by simp [fetchLoop, hc, errTail]⟩
      | vNull => exact ⟨[], some _, rfl⟩
      | vBool bb => exact ⟨[], some _, rfl⟩
      | vInt nn => exact ⟨[], some _, rfl⟩
      | vStr ss => exact ⟨[], some _, rfl⟩
      | vList xs => exact ⟨[], some _, rfl⟩

/-- On a run of continuing pages followed by a terminal page, the loop
yields exactly one batch per page, each carrying the page's `data`
value. -/
theorem fetchLoop_good_pages (url key : String) (b : Int) (ps : List PyVal) (p : PyVal)
    (hps : ∀ q ∈ ps, pageCont q = true) (hp : pageLast p = true) :
    ∀ (cursor : Option PyVal),
      (fetchLoop url key b cursor ((ps ++ [p]).map .success)).2 =
        (ps ++ [p]).map (fun q => FetchItem.batch (pageData q)) := by
  induction ps with
  | nil =>
    intro cursor
    cases p with
    | vDict kvs =>
      simp only [pageLast, Bool.not_eq_true'] at hp
      simp [fetchLoop, hp, pageData]
    | vNull => cases hp
    | vBool bb => cases hp
    | vInt nn => cases hp
    | vStr ss => cases hp
    | vList xs => cases hp
  | cons q ps ih =>
    intro cursor
    have hq : pageCont q = true := hps q (by simp)
    cases q with
    | vDict kvs =>
      simp only [pageCont] at hq
      have hrec := ih (fun x hx => hps x (by simp [hx])) (some (dGet kvs "nextCursor" .vNull))
      simp only [List.map_append, List.map_cons, List.map_nil] at hrec
      simp [fetchLoop, hq, hrec, pageData]
    | vNull => cases hq
    | vBool bb => cases hq
    | vInt nn => cases hq
    | vStr ss => cases hq
    | vList xs => cases hq

/-- On a run of continuing pages followed by a decode failure, the loop
yields the page batches and then exactly the formatted decode error. -/
theorem fetchLoop_decode (url key : String) (b : Int) (ps : List PyVal)
    (hps : ∀ q ∈ ps, pageCont q = true) (st : Int) (tx : String) (rest : List HttpResult) :
    ∀ (cursor : Option PyVal),
      (fetchLoop url key b cursor (ps.map .success ++ .decodeFailure st tx :: rest)).2 =
        ps.map (fun q => FetchItem.batch (pageData q)) ++
          [.error (decodeErrMsg (intToStr st) url (⟨tx.data.take 500⟩ : String))] := by
  induction ps with
  | nil => intro cursor; rfl
  | cons q ps ih =>
    intro cursor
    have hq : pageCont q = true := hps q (by simp)
    cases q with
    | vDict kvs =>
      simp only [pageCont] at hq
      have := ih (fun x hx => hps x (by simp [hx])) (some (dGet kvs "nextCursor" .vNull))
      simp [fetchLoop, hq, this, pageData]
    | vNull => cases hq
    | vBool bb => cases hq
    | vInt nn => cases hq
    | vStr ss => cases hq
    | vList xs => cases hq

/-- On a run of continuing pages followed by a request failure, the loop
yields the page batches and then exactly the formatted request error. -/
theorem fetchLoop_reqfail (url key : String) (b : Int) (ps : List PyVal)
    (hps : ∀ q ∈ ps, pageCont q = true) (msg : String) (rest : List HttpResult) :
    ∀ (cursor : Option PyVal),
      (fetchLoop url key b cursor (ps.map .success ++ .requestError msg :: rest)).2 =
        ps.map (fun q => FetchItem.batch (pageData q)) ++ [.error ("Request failed: " ++ msg)] := by
  induction ps with
  | nil => intro cursor; rfl
  | cons q ps ih =>
    intro cursor
    have hq : pageCont q = true := hps q (by simp)
    cases q with
    | vDict kvs =>
      simp only [pageCont] at hq
      have := ih (fun x hx => hps x (by simp [hx])) (some (dGet kvs "nextCursor" .vNull))
      simp [fetchLoop, hq, this, pageData]
    | vNull => cases hq
    | vBool bb => cases hq
    | vInt nn => cases hq
    | vStr ss => cases hq
    | vList xs => cases hq

/-
Claim theorems.
-/

/-- C1: the claim says `process_workflows` returns normally on records
whose nodes are missing `type` or `name`; in fact `node.get("type")`
defaults to `None` and `"lmChat" in None` raises TypeError, so the
classifier raises on a node with no `type` field. -/
theorem process_workflows_raises_on_missing_type :
    process_workflows (.vDict [("data", .vList [.vDict [("nodes", .vList [.vDict []])]])])
      = .error (.typeError "argument of type \x27NoneType\x27 is not iterable") := rfl

/-- C2: the claim says the page size is a caller-supplied parameter sent
as `limit`; in fact the function has no page-size parameter — with
identical caller arguments, the `limit` sent is 20 when `N8N_BATCH_SIZE`
is unset and 50 when that environment variable is `"50"`, so the limit is
resolved from the environment, not from the caller. -/
theorem fetch_limit_comes_from_env_not_caller :
    (fetch_workflows_generator (some "http://u") (some "k")
        ⟨none, none, none⟩ [.success (.vDict [])]).1 = [⟨"http://u", "k", 20, none⟩] ∧
    (fetch_workflows_generator (some "http://u") (some "k")
        ⟨none, none, some "50"⟩ [.success (.vDict [])]).1 = [⟨"http://u", "k", 50, none⟩] :=
  ⟨rfl, rfl⟩

/-- C3 counterexample: the sentinel type itself contains `"lmChat"`, yet
a workflow whose only node has exactly the sentinel type is classified
with an empty other-model list — the node goes to the preferred list
instead, refuting the claimed "iff". -/
theorem other_list_excludes_pure_openrouter_node :
    strContains sentinel "lmChat" = true ∧
    process_workflows (.vDict [("data", .vList [.vDict [("id", .vStr "w1"),
        ("name", .vStr "W"),
        ("nodes", .vList [.vDict [("type", .vStr sentinel), ("name", .vStr "n")]])]])])
      = .ok ([⟨.vStr "w1", .vStr "W", .vBool false, "n", "None", ""⟩], [],
             [⟨.vStr "w1", .vStr "W", .vBool false, "n", "None", ""⟩]) :=
  ⟨by decide, rfl⟩

/-- C3 (amended): for a workflow whose nodes are well-formed, the
other-model flag is set iff some node is NOT exactly the sentinel type
and its `type` contains `"lmChat"` or its `name` contains `"ChatModel"`
(so a name-only match suffices, but a sentinel-typed node never counts as
"other"). -/
theorem other_flag_iff_nonsentinel_match (wkvs : List (String × PyVal)) (ns : List PyVal)
    (info : WorkflowInfo) (hOR hOth : Bool)
    (hnodes : dGet wkvs "nodes" (.vList []) = .vList ns)
    (hwf : ns.all nodeWF = true)
    (h : processWorkflow (.vDict wkvs) = .ok (info, hOR, hOth)) :
    hOth = true ↔ ∃ n ∈ ns, otherMatch n = true := by
  obtain ⟨wkvs2, ns2, acc, heq, hit, hsc, hORe, hOthe, -, -, -, -, -, -⟩ :=
    processWorkflow_char _ _ _ _ h
  injection heq with hkv
  subst hkv
  rw [hnodes] at hit
  simp only [pyIter] at hit
  injection hit with hns
  subst hns
  obtain ⟨-, -, h3⟩ := scanNodes_char ns accInit acc hsc
  rw [hOthe, h3 hwf]
  simp [accInit, List.any_eq_true]

/-- C3 witness: a node matching on name alone (type `"x"`, name containing
`"ChatModel"`) makes the other flag true. -/
theorem other_flag_iff_nonsentinel_match_w :
    (true = true ↔ ∃ n ∈ [PyVal.vDict [("type", PyVal.vStr "x"),
        ("name", PyVal.vStr "MyChatModelHelper")]], otherMatch n = true) :=
  other_flag_iff_nonsentinel_match
    [("nodes", .vList [.vDict [("type", .vStr "x"), ("name", .vStr "MyChatModelHelper")]])]
    [.vDict [("type", .vStr "x"), ("name", .vStr "MyChatModelHelper")]]
    ⟨.vNull, .vStr "Unnamed Workflow", .vBool false, "MyChatModelHelper", "None", ""⟩
    false true rfl (by decide) rfl

/-- C4: with a resolvable configuration, the fetcher is a total function
(the embedding raises nothing) whose yielded sequence is always some
batches followed by at most one error, which is last; and on a run of
continuing pages followed by a decode failure (resp. a request/HTTP
failure) it yields the page batches and then exactly one error carrying
the status and the 500-character body excerpt (resp. the failure
description). -/
theorem fetcher_error_single_and_terminal (url key : String)
    (api_url api_key : Option String) (env : Env) (b : Int)
    (hu : resolveApiUrl api_url env = some url) (hk : resolveApiKey api_key env = some key)
    (hu0 : url ≠ "") (hk0 : key ≠ "") (hb : resolveBatchSize env = some b) :
    (∀ (responses : List HttpResult), ∃ (bs : List PyVal) (e : Option String),
      (fetch_workflows_generator api_url api_key env responses).2
        = bs.map FetchItem.batch ++ errTail e) ∧
    (∀ (ps : List PyVal) (st : Int) (tx : String) (rest : List HttpResult),
      (∀ q ∈ ps, pageCont q = true) →
      (fetch_workflows_generator api_url api_key env
          (ps.map .success ++ .decodeFailure st tx :: rest)).2
        = ps.map (fun q => FetchItem.batch (pageData q)) ++
            [.error (decodeErrMsg (intToStr st) url (⟨tx.data.take 500⟩ : String))]) ∧
    (∀ (ps : List PyVal) (msg : String) (rest : List HttpResult),
      (∀ q ∈ ps, pageCont q = true) →
      (fetch_workflows_generator api_url api_key env
          (ps.map .success ++ .requestError msg :: rest)).2
        = ps.map (fun q => FetchItem.batch (pageData q)) ++
            [.error ("Request failed: " ++ msg)]) := by
  refine ⟨fun responses => ?_, fun ps st tx rest hps => ?_, fun ps msg rest hps => ?_⟩
  · rw [fetch_run url key api_url api_key env b _ hu hk hu0 hk0 hb]
    exact fetchLoop_shape url key b _ none
  · rw [fetch_run url key api_url api_key env b _ hu hk hu0 hk0 hb]
    exact fetchLoop_decode url key b ps hps st tx rest none
  · rw [fetch_run url key api_url api_key env b _ hu hk hu0 hk0 hb]
    exact fetchLoop_reqfail url key b ps hps msg rest none

/-- C4 witness: one good page then a 502 body that is not JSON gives one
batch, then exactly the formatted decode error, and nothing after it. -/
theorem fetcher_error_single_and_terminal_w :
    (fetch_workflows_generator (some "http://u") (some "k") ⟨none, none, none⟩
        [.success (.vDict [("data", .vList [.vInt 1]), ("nextCursor", .vStr "c")]),
         .decodeFailure 502 "<html>"]).2
      = [FetchItem.batch (.vList [.vInt 1]),
         .error (decodeErrMsg (intToStr 502) "http://u" (⟨"<html>".data.take 500⟩ : String))] := by
  have h := (fetcher_error_single_and_terminal "http://u" "k" (some "http://u") (some "k")
      ⟨none, none, none⟩ 20 rfl rfl (by decide) (by decide) rfl).2.1
  exact h [.vDict [("data", .vList [.vInt 1]), ("nextCursor", .vStr "c")]] 502 "<html>" []
    (by decide)

/-- C5: when the key or the URL cannot be resolved, the fetcher issues
zero requests and yields exactly one error value. -/
theorem fetcher_missing_config_no_requests (api_url api_key : Option String) (env : Env)
    (responses : List HttpResult)
    (h : optFalsy (resolveApiKey api_key env) = true ∨
         optFalsy (resolveApiUrl api_url env) = true) :
    (fetch_workflows_generator api_url api_key env responses).1 = [] ∧
    ∃ msg, (fetch_workflows_generator api_url api_key env responses).2 = [.error msg] := by
  cases hk : optFalsy (resolveApiKey api_key env) with
  | true =>
    refine ⟨?_, "API key not found. Please set N8N_API_KEY in .env file.", ?_⟩ <;>
      simp [fetch_workflows_generator, hk]
  | false =>
    have hurl : optFalsy (resolveApiUrl api_url env) = true := by
      rcases h with h | h
      · rw [hk] at h; cases h
      · exact h
    refine ⟨?_, "API URL not found. Please set N8N_BASE_URL in .env file or pass api_url.", ?_⟩ <;>
      simp [fetch_workflows_generator, hk, hurl]

/-- C5 witness: no key argument and no key in the environment gives zero
requests and a single error item, with responses available. -/
theorem fetcher_missing_config_no_requests_w :
    (fetch_workflows_generator none none ⟨none, some "http://b", none⟩
        [.success (.vDict [])]).1 = [] ∧
    ∃ msg, (fetch_workflows_generator none none ⟨none, some "http://b", none⟩
        [.success (.vDict [])]).2 = [.error msg] :=
  fetcher_missing_config_no_requests none none ⟨none, some "http://b", none⟩
    [.success (.vDict [])] (Or.inl rfl)

/-- C6: on a response run of continuing pages (truthy `nextCursor`)
ending in a page with absent/falsy `nextCursor`, the fetcher yields
exactly one batch per page, each equal to that page\x27s `data` value, so
the item count equals the page count and the total records equal the sum
of the pages\x27 `data` lengths; with a single cursor-less page this is
exactly one batch. -/
theorem fetcher_one_batch_per_page (url key : String) (api_url api_key : Option String)
    (env : Env) (b : Int) (ps : List PyVal) (p : PyVal)
    (hu : resolveApiUrl api_url env = some url) (hk : resolveApiKey api_key env = some key)
    (hu0 : url ≠ "") (hk0 : key ≠ "") (hb : resolveBatchSize env = some b)
    (hps : ∀ q ∈ ps, pageCont q = true) (hp : pageLast p = true) :
    (fetch_workflows_generator api_url api_key env ((ps ++ [p]).map .success)).2
      = (ps ++ [p]).map (fun q => FetchItem.batch (pageData q)) ∧
    ((fetch_workflows_generator api_url api_key env ((ps ++ [p]).map .success)).2).length
      = ps.length + 1 ∧
    (((fetch_workflows_generator api_url api_key env ((ps ++ [p]).map .success)).2).map
        batchLen).sum = ((ps ++ [p]).map dataLen).sum := by
  have hrun := fetch_run url key api_url api_key env b ((ps ++ [p]).map .success) hu hk hu0 hk0 hb
  have hmain := fetchLoop_good_pages url key b ps p hps hp none
  refine ⟨by rw [hrun]; exact hmain, ?_, ?_⟩
  · rw [hrun, hmain]; simp
  · rw [hrun, hmain, List.map_map]
    have he : ∀ q : PyVal, (batchLen ∘ fun q => FetchItem.batch (pageData q)) q = dataLen q := by
      intro q
      cases hq : pageData q <;> simp [batchLen, dataLen, Function.comp, hq]
    rw [show (batchLen ∘ fun q => FetchItem.batch (pageData q)) = dataLen from funext he]

/-- C6 witness: two pages (the first with a cursor) give exactly the two
`data` batches, two items, and three records in total. -/
theorem fetcher_one_batch_per_page_w :
    (fetch_workflows_generator (some "http://u") (some "k") ⟨none, none, none⟩
        (([PyVal.vDict [("data", PyVal.vList [PyVal.vInt 1, PyVal.vInt 2]),
            ("nextCursor", PyVal.vStr "c1")]] ++
          [PyVal.vDict [("data", PyVal.vList [PyVal.vInt 3])]]).map .success)).2
      = ([PyVal.vDict [("data", PyVal.vList [PyVal.vInt 1, PyVal.vInt 2]),
            ("nextCursor", PyVal.vStr "c1")]] ++
         [PyVal.vDict [("data", PyVal.vList [PyVal.vInt 3])]]).map
          (fun q => FetchItem.batch (pageData q)) ∧
    ((fetch_workflows_generator (some "http://u") (some "k") ⟨none, none, none⟩
        (([PyVal.vDict [("data", PyVal.vList [PyVal.vInt 1, PyVal.vInt 2]),
            ("nextCursor", PyVal.vStr "c1")]] ++
          [PyVal.vDict [("data", PyVal.vList [PyVal.vInt 3])]]).map .success)).2).length
      = 1 + 1 ∧
    (((fetch_workflows_generator (some "http://u") (some "k") ⟨none, none, none⟩
        (([PyVal.vDict [("data", PyVal.vList [PyVal.vInt 1, PyVal.vInt 2]),
            ("nextCursor", PyVal.vStr "c1")]] ++
          [PyVal.vDict [("data", PyVal.vList [PyVal.vInt 3])]]).map .success)).2).map
        batchLen).sum
      = (([PyVal.vDict [("data", PyVal.vList [PyVal.vInt 1, PyVal.vInt 2]),
            ("nextCursor", PyVal.vStr "c1")]] ++
          [PyVal.vDict [("data", PyVal.vList [PyVal.vInt 3])]]).map dataLen).sum :=
  fetcher_one_batch_per_page "http://u" "k" (some "http://u") (some "k")
    ⟨none, none, none⟩ 20
    [PyVal.vDict [("data", PyVal.vList [PyVal.vInt 1, PyVal.vInt 2]),
      ("nextCursor", PyVal.vStr "c1")]]
    (PyVal.vDict [("data", PyVal.vList [PyVal.vInt 3])])
    rfl rfl (by decide) (by decide) rfl (by decide) (by decide)

/-- C7: on a successful run over an error-free input whose `data` is a
workflow list, the all-list is exactly one derived row per workflow in
input order, and the preferred/other lists are the subsequences of those
rows whose respective flag is set — two independent filters of the same
row list. -/
theorem classifier_lists_structure (kvs : List (String × PyVal)) (ws : List PyVal)
    (p o a : List WorkflowInfo)
    (hne : kvs.any (fun kv => kv.1 == "error") = false)
    (hdata : dGet kvs "data" (.vList []) = .vList ws)
    (h : process_workflows (.vDict kvs) = .ok (p, o, a)) :
    ∃ rs, mapE processWorkflow ws = .ok rs ∧
      a = rs.map (fun r => r.1) ∧
      p = (rs.filter (fun r => r.2.1)).map (fun r => r.1) ∧
      o = (rs.filter (fun r => r.2.2)).map (fun r => r.1) := by
  rw [process_workflows_run kvs ws hne hdata] at h
  obtain ⟨rs, hmap, hasm⟩ := processList_char ws p o a h
  have e1 := congrArg (fun t => t.1) hasm
  have e2 := congrArg (fun t => t.2.1) hasm
  have e3 := congrArg (fun t => t.2.2) hasm
  simp only [assembleLists] at e1 e2 e3
  exact ⟨rs, hmap, e3, e1, e2⟩

/-- C7 witness: a workflow holding both a preferred and an other node
together with a node-less workflow — the first row is in both filtered
lists, the second in neither, and the all-list has both rows in order. -/
theorem classifier_lists_structure_w :
    ∃ rs, mapE processWorkflow
        [PyVal.vDict [("id", PyVal.vStr "w1"),
          ("nodes", PyVal.vList [PyVal.vDict [("type", PyVal.vStr sentinel),
            ("name", PyVal.vStr "a")],
            PyVal.vDict [("type", PyVal.vStr "x.lmChatOpenAI"), ("name", PyVal.vStr "b")]])],
         PyVal.vDict [("id", PyVal.vStr "w2")]] = .ok rs ∧
      [⟨PyVal.vStr "w1", PyVal.vStr "Unnamed Workflow", PyVal.vBool false, "a, b", "None", ""⟩,
       ⟨PyVal.vStr "w2", PyVal.vStr "Unnamed Workflow", PyVal.vBool false, "None", "None", ""⟩]
        = rs.map (fun r => r.1) ∧
      [⟨PyVal.vStr "w1", PyVal.vStr "Unnamed Workflow", PyVal.vBool false, "a, b", "None", ""⟩]
        = (rs.filter (fun r => r.2.1)).map (fun r => r.1) ∧
      [⟨PyVal.vStr "w1", PyVal.vStr "Unnamed Workflow", PyVal.vBool false, "a, b", "None", ""⟩]
        = (rs.filter (fun r => r.2.2)).map (fun r => r.1) :=
  classifier_lists_structure
    [("data", PyVal.vList
      [PyVal.vDict [("id", PyVal.vStr "w1"),
        ("nodes", PyVal.vList [PyVal.vDict [("type", PyVal.vStr sentinel),
          ("name", PyVal.vStr "a")],
          PyVal.vDict [("type", PyVal.vStr "x.lmChatOpenAI"), ("name", PyVal.vStr "b")]])],
       PyVal.vDict [("id", PyVal.vStr "w2")]])]
    [PyVal.vDict [("id", PyVal.vStr "w1"),
      ("nodes", PyVal.vList [PyVal.vDict [("type", PyVal.vStr sentinel),
        ("name", PyVal.vStr "a")],
        PyVal.vDict [("type", PyVal.vStr "x.lmChatOpenAI"), ("name", PyVal.vStr "b")]])],
     PyVal.vDict [("id", PyVal.vStr "w2")]]
    _ _ _ rfl rfl rfl

/-- C8 counterexample: a sentinel-typed node whose `model` parameter is
present and is a mapping — but the empty mapping — contributes nothing:
the row\x27s "Model Used" is `""`, not `"Dynamic"`, because the code tests
the value for truthiness, not for presence. -/
theorem empty_mapping_model_not_dynamic :
    processWorkflow (.vDict [("nodes", .vList [.vDict [("type", .vStr sentinel),
        ("name", .vStr "n"), ("parameters", .vDict [("model", .vDict [])])]])])
      = .ok (⟨.vNull, .vStr "Unnamed Workflow", .vBool false, "n", "None", ""⟩, true, false) :=
  rfl

/-- C8 (amended): a successful node step appends to the `models`
collector exactly `nodeModelContrib`: only sentinel-typed nodes
contribute, and only when the `model` parameter is truthy — `"Dynamic"`
for a (non-empty) mapping, the `str` form for other truthy values,
nothing when the field is absent or falsy; non-sentinel nodes never
contribute. -/
theorem model_collector_contribution (acc : NodeAcc) (n : PyVal) (acc2 : NodeAcc)
    (h : processNode acc n = .ok acc2) :
    acc2.models = acc.models ++ nodeModelContrib n ∧
    (orMatch n = false → acc2.models = acc.models) := by
  have hm := processNode_models acc n acc2 h
  exact ⟨hm, fun hor => by simp [hm, nodeModelContrib, hor]⟩

/-- C8 witness: a sentinel node with `model = "gpt-4"` contributes exactly
`["gpt-4"]`. -/
theorem model_collector_contribution_w :
    (NodeAcc.mk true false [PyVal.vStr "n"] [] ["gpt-4"]).models
        = accInit.models ++ nodeModelContrib (PyVal.vDict [("type", PyVal.vStr sentinel),
            ("name", PyVal.vStr "n"), ("parameters", PyVal.vDict [("model", PyVal.vStr "gpt-4")])]) ∧
    (orMatch (PyVal.vDict [("type", PyVal.vStr sentinel), ("name", PyVal.vStr "n"),
        ("parameters", PyVal.vDict [("model", PyVal.vStr "gpt-4")])]) = false →
      (NodeAcc.mk true false [PyVal.vStr "n"] [] ["gpt-4"]).models = accInit.models) :=
  model_collector_contribution accInit
    (PyVal.vDict [("type", PyVal.vStr sentinel), ("name", PyVal.vStr "n"),
      ("parameters", PyVal.vDict [("model", PyVal.vStr "gpt-4")])])
    (NodeAcc.mk true false [PyVal.vStr "n"] [] ["gpt-4"]) rfl

/-- C9: in every successfully derived row the display fields are the
collectors joined with `", "`, with `"None"` as the placeholder for an
empty chat-model or key collector but `""` for an empty model collector;
consequently a workflow whose `nodes` value is the empty list (or absent)
yields the row `("None", "None", "")` with both flags false, so it is
only in the all-list. -/
theorem collector_join_placeholders (w : PyVal) (info : WorkflowInfo) (hOR hOth : Bool)
    (h : processWorkflow w = .ok (info, hOR, hOth)) :
    (∃ wkvs ns acc, w = .vDict wkvs ∧
      pyIter (dGet wkvs "nodes" (.vList [])) = .ok ns ∧
      scanNodes accInit ns = .ok acc ∧
      collectorField acc.chatModels = .ok info.chatModelUsed ∧
      collectorField acc.keys = .ok info.key ∧
      info.modelUsed = modelField acc.models ∧
      (acc.chatModels = [] → info.chatModelUsed = "None") ∧
      (acc.keys = [] → info.key = "None") ∧
      (acc.models = [] → info.modelUsed = "")) ∧
    (∀ wkvs, w = .vDict wkvs → dGet wkvs "nodes" (.vList []) = .vList [] →
      info = ⟨dGet wkvs "id" .vNull, dGet wkvs "name" (.vStr "Unnamed Workflow"),
              dGet wkvs "active" (.vBool false), "None", "None", ""⟩ ∧
      hOR = false ∧ hOth = false) := by
  obtain ⟨wkvs, ns, acc, heq, hit, hsc, hORe, hOthe, hid, hname, hact, hcf, hkf, hmf⟩ :=
    processWorkflow_char _ _ _ _ h
  constructor
  · refine ⟨wkvs, ns, acc, heq, hit, hsc, hcf, hkf, hmf, ?_, ?_, ?_⟩
    · intro hce
      rw [hce] at hcf
      simp [collectorField] at hcf
      exact hcf.symm
    · intro hke
      rw [hke] at hkf
      simp [collectorField] at hkf
      exact hkf.symm
    · intro hme
      rw [hmf, hme]
      rfl
  · intro wkvs2 hw hnodes
    subst hw
    injection heq with hkv
    subst hkv
    rw [hnodes] at hit
    simp only [pyIter] at hit
    injection hit with hns
    subst hns
    simp only [scanNodes] at hsc
    injection hsc with hacc
    subst hacc
    simp only [collectorField, accInit, List.isEmpty_nil, if_true] at hcf hkf
    injection hcf with hc
    injection hkf with hk
    refine ⟨?_, hORe, hOthe⟩
    cases info
    simp only at hid hname hact hc hk hmf
    simp [hid, hname, hact, hc.symm, hk.symm, hmf, modelField, accInit]

/-- C9 witness: a workflow dict with no `nodes` key yields the row with
`"None"`, `"None"`, `""` and both flags false. -/
theorem collector_join_placeholders_w :
    (∃ wkvs ns acc, PyVal.vDict [("id", PyVal.vStr "w2")] = PyVal.vDict wkvs ∧
      pyIter (dGet wkvs "nodes" (PyVal.vList [])) = .ok ns ∧
      scanNodes accInit ns = .ok acc ∧
      collectorField acc.chatModels = .ok "None" ∧
      collectorField acc.keys = .ok "None" ∧
      "" = modelField acc.models ∧
      (acc.chatModels = [] → "None" = "None") ∧
      (acc.keys = [] → "None" = "None") ∧
      (acc.models = [] → "" = "")) ∧
    (∀ wkvs, PyVal.vDict [("id", PyVal.vStr "w2")] = PyVal.vDict wkvs →
      dGet wkvs "nodes" (PyVal.vList []) = PyVal.vList [] →
      (⟨PyVal.vStr "w2", PyVal.vStr "Unnamed Workflow", PyVal.vBool false,
        "None", "None", ""⟩ : WorkflowInfo)
        = ⟨dGet wkvs "id" PyVal.vNull, dGet wkvs "name" (PyVal.vStr "Unnamed Workflow"),
           dGet wkvs "active" (PyVal.vBool false), "None", "None", ""⟩ ∧
      false = false ∧ false = false) :=
  collector_join_placeholders (PyVal.vDict [("id", PyVal.vStr "w2")])
    ⟨PyVal.vStr "w2", PyVal.vStr "Unnamed Workflow", PyVal.vBool false, "None", "None", ""⟩
    false false rfl

/-- C10: an input mapping containing the key `"error"` makes
`process_workflows` return three empty lists, and in particular the
yielded error value of the fetcher, fed directly to the classifier,
yields the empty classification. -/
theorem error_key_returns_empty (kvs : List (String × PyVal))
    (h : kvs.any (fun kv => kv.1 == "error") = true) :
    process_workflows (.vDict kvs) = .ok ([], [], []) ∧
    (∀ msg, process_workflows (FetchItem.toPy (.error msg)) = .ok ([], [], [])) := by
  constructor
  · simp [process_workflows, pyInStr, h, Bind.bind, Except.bind, exceptPure_eq]
  · intro msg
    simp [process_workflows, pyInStr, FetchItem.toPy, Bind.bind, Except.bind, exceptPure_eq]

/-- C10 witness: the concrete error dict maps to three empty lists. -/
theorem error_key_returns_empty_w :
    process_workflows (.vDict [("error", .vStr "boom")]) = .ok ([], [], []) ∧
    (∀ msg, process_workflows (FetchItem.toPy (.error msg)) = .ok ([], [], [])) :=
  error_key_returns_empty [("error", .vStr "boom")] rfl

example : pyInt "20" = some 20 := by decide
example : pyInt " -7 " = some (-7) := by decide
example : pyInt "x2" = none := by decide
example : strContains "@n8n/n8n-nodes-langchain.lmChatOpenRouter" "lmChat" = true := by decide
example : strContains "abc" "" = true := by decide
example : strContains "ab" "ba" = false := by decide
example : pyStr (.vList [.vInt 3, .vStr "a"]) = "[3, \x27a\x27]" := by decide
